import Mathlib

/-!
Verification of the group-review web application (src/app/app.py).

The application is modelled as pure state transformers over an explicit
application state.  Strings stand for Python strings, association lists
(preserving insertion order, keys unique) stand for Python dicts, and the
per-identity file system is a function from path to file content.  Each
route handler returns the new state, the HTTP-level response, and the
trace of file-system write operations it performed.
-/

namespace ReviewApp

/-- Content of one file on disk: missing, present but not JSON-parseable,
or present and parsed to a mapping of group name to item list. -/
inductive FileContent
  | absent
  | corrupt
  | parsed (m : List (String × List String))
  deriving DecidableEq, Repr

/-- A file-system side effect performed by a handler. -/
inductive FsOp
  | write (path : String) (content : List (String × List String))
  | rename (src : String) (dst : String)
  | remove (path : String)
  deriving DecidableEq, Repr

/-- Whether the operation is a rename. -/
def FsOp.isRename : FsOp → Bool
  | FsOp.rename _ _ => true
  | _ => false

/-- The Flask session: the two keys the application uses, each possibly
absent, matching session.get returning None for a missing key. -/
structure Session where
  computing_id : Option String
  current_index : Option Nat
  deriving DecidableEq, Repr

/-- Python truthiness of session.get for a string key: false for a missing
key (None) and for the empty string. -/
def truthyStr : Option String → Bool
  | none => false
  | some s => if s = "" then false else true

/-- Full application state: the module-level group_list built at startup,
the per-request session, and the file system. -/
structure AppState where
  group_list : List (String × List String)
  session : Session
  files : String → FileContent

/-- The HTTP-level outcome of a handler. -/
inductive Response
  | redirectIndex
  | redirectDone
  | showIdentForm
  | showGroup (group_name : String) (diagnoses : List String)
      (current_index : Nat) (total_groups : Nat)
  | showDone (verified_groupings : List (String × List String))
  deriving DecidableEq, Repr

/-- One step of the grouping loop: grouped_data.setdefault(group, []).append(diagnosis).
If the group key exists its item list gains the diagnosis at the end,
otherwise the key is appended with a singleton list (dict insertion order). -/
def addDiag (acc : List (String × List String)) (diagnosis : String) (group : String) :
    List (String × List String) :=
  match acc with
  | [] => [(group, [diagnosis])]
  | (g, ds) :: rest =>
      if g = group then (g, ds ++ [diagnosis]) :: rest
      else (g, ds) :: addDiag rest diagnosis group

/-- grouped_data: fold of the setdefault/append loop over the
diagnosis-to-group mapping in its (insertion) order. -/
def grouped_data (diagnoses_data : List (String × String)) :
    List (String × List String) :=
  diagnoses_data.foldl (fun acc p => addDiag acc p.1 p.2) []

/-- group_list: the ordered list of (groupName, diagnoses) pairs, one per
key of grouped_data in key order. -/
def group_list (diagnoses_data : List (String × String)) :
    List (String × List String) :=
  grouped_data diagnoses_data

/-- Python dict indexed assignment d[k] = v on an association list:
overwrite in place when the key exists, else append. -/
def dictInsert (k : String) (v : List String) :
    List (String × List String) → List (String × List String)
  | [] => [(k, v)]
  | (k1, v1) :: rest =>
      if k1 = k then (k, v) :: rest else (k1, v1) :: dictInsert k v rest

/-- Python dict lookup d.get(k) on an association list. -/
def dictLookup (k : String) : List (String × List String) → Option (List String)
  | [] => none
  | (k1, v1) :: rest => if k1 = k then some v1 else dictLookup k rest

/-- get_verified_file: path of the verified-groups file for the session
identity, None when no (truthy) computing id is set. -/
def get_verified_file (s : Session) : Option String :=
  match s.computing_id with
  | none => none
  | some cid =>
      if cid = "" then none else some (cid ++ "_verified_groups.json")

/-- load_verified_groups: the identity's verified mapping; empty when no
identity is set, when the file does not exist, or when its content does
not parse. -/
def load_verified_groups (st : AppState) : List (String × List String) :=
  match get_verified_file st.session with
  | none => []
  | some f =>
      match st.files f with
      | FileContent.parsed m => m
      | FileContent.corrupt => []
      | FileContent.absent => []

/-- save_verified_groups: dump the mapping into the identity's file by a
single in-place write (open with mode w, json.dump); no write when no
identity is set. -/
def save_verified_groups (st : AppState) (verified_data : List (String × List String)) :
    AppState × List FsOp :=
  match get_verified_file st.session with
  | none => (st, [])
  | some f =>
      ({ st with
          files := fun p => if p = f then FileContent.parsed verified_data else st.files p },
       [FsOp.write f verified_data])

/-- Python str.strip(): drop whitespace characters from both ends. -/
def pyStrip (s : String) : String :=
  String.mk (((s.data.dropWhile Char.isWhitespace).reverse.dropWhile Char.isWhitespace).reverse)

/-- POST handler of the index route: establish the (stripped) computing id
when non-empty and reset current_index to 0, then redirect to the index. -/
def index_post (st : AppState) (computing_id_form : String) : AppState × Response :=
  let computing_id := pyStrip computing_id_form
  if computing_id = "" then (st, Response.redirectIndex)
  else
    ({ st with session := { computing_id := some computing_id, current_index := some 0 } },
     Response.redirectIndex)

/-- GET handler of the index route: identification form when no identity;
else default a missing cursor to 0, redirect to the done page when the
cursor has passed the catalog, else show the current group. -/
def index_get (st : AppState) : AppState × Response :=
  if truthyStr st.session.computing_id then
    let st1 : AppState :=
      match st.session.current_index with
      | none => { st with session := { st.session with current_index := some 0 } }
      | some _ => st
    let current_index := st1.session.current_index.getD 0
    if current_index ≥ st1.group_list.length then (st1, Response.redirectDone)
    else
      let p := st1.group_list.getD current_index ("", [])
      (st1, Response.showGroup p.1 p.2 current_index st1.group_list.length)
  else (st, Response.showIdentForm)

/-- The verify route: redirect to the index when unidentified; redirect to
the done page when the cursor is exhausted; otherwise on a yes decision
upsert the effective group name with the current items into the verified
store, and in every decided case advance the cursor by one. -/
def verify (st : AppState) (group_valid : Option String) (new_group_name_form : Option String) :
    AppState × Response × List FsOp :=
  if truthyStr st.session.computing_id then
    let current_index := st.session.current_index.getD 0
    if current_index ≥ st.group_list.length then (st, Response.redirectDone, [])
    else
      let new_group_name := pyStrip (new_group_name_form.getD "")
      let p := st.group_list.getD current_index ("", [])
      let stepped : AppState × List FsOp :=
        if group_valid = some "yes" then
          let final_name := if new_group_name = "" then p.1 else new_group_name
          let verified_data := load_verified_groups st
          save_verified_groups st (dictInsert final_name p.2 verified_data)
        else (st, [])
      ({ stepped.1 with
          session := { stepped.1.session with current_index := some (current_index + 1) } },
       Response.redirectIndex, stepped.2)
  else (st, Response.redirectIndex, [])

/-- The done route: summary of the verified store, or redirect to the
index when unidentified. -/
def done_get (st : AppState) : AppState × Response :=
  if truthyStr st.session.computing_id then
    (st, Response.showDone (load_verified_groups st))
  else (st, Response.redirectIndex)

/-- The clear_data route: clear the session, delete the identity's
verified file when it exists, redirect to the index. -/
def clear_data (st : AppState) : AppState × Response × List FsOp :=
  let verified_file := get_verified_file st.session
  let st1 : AppState := { st with session := { computing_id := none, current_index := none } }
  match verified_file with
  | none => (st1, Response.redirectIndex, [])
  | some f =>
      if st1.files f ≠ FileContent.absent then
        ({ st1 with files := fun p => if p = f then FileContent.absent else st1.files p },
         Response.redirectIndex, [FsOp.remove f])
      else (st1, Response.redirectIndex, [])

/-- The session cursor as the application reads it: session.get with
default 0. -/
def cursor (st : AppState) : Nat :=
  st.session.current_index.getD 0

/-- The catalog of the end-to-end example in the specification. -/
def sampleData : List (String × String) :=
  [("flu", "Respiratory"), ("cold", "Respiratory"), ("fracture", "Ortho")]

/-- The derived group list of the example catalog. -/
def sampleCatalog : List (String × List String) :=
  group_list sampleData

/-- A fresh process state over the example catalog: no session keys, no
files on disk. -/
def sampleInitial : AppState :=
  { group_list := sampleCatalog
  , session := { computing_id := none, current_index := none }
  , files := fun _ => FileContent.absent }

/-- An identified state over the example catalog with the cursor at 0. -/
def st0 : AppState :=
  { group_list := sampleCatalog
  , session := { computing_id := some "alice", current_index := some 0 }
  , files := fun _ => FileContent.absent }

/-- A state over the example catalog with the cursor exhausted and a
verified file already on disk. -/
def st1 : AppState :=
  { group_list := sampleCatalog
  , session := { computing_id := some "alice", current_index := some 2 }
  , files := fun p =>
      if p = "alice_verified_groups.json" then
        FileContent.parsed [("Respiratory", ["flu", "cold"])]
      else FileContent.absent }

/-- Looking up a key just inserted by dict assignment yields its value. -/
theorem dictLookup_dictInsert (k : String) (v : List String)
    (m : List (String × List String)) :
    dictLookup k (dictInsert k v m) = some v := by
  induction m with
  | nil => simp [dictInsert, dictLookup]
  | cons hd tl ih =>
      obtain ⟨k1, v1⟩ := hd
      by_cases h : k1 = k
      · simp [dictInsert, dictLookup, h]
      · simp [dictInsert, dictLookup, h, ih]

/-- A truthy computing id yields a verified-file path built from it. -/
theorem get_verified_file_of_truthy (s : Session)
    (h : truthyStr s.computing_id = true) :
    ∃ cid, s.computing_id = some cid ∧ cid ≠ "" ∧
      get_verified_file s = some (cid ++ "_verified_groups.json") := by
  cases hc : s.computing_id with
  | none => rw [hc] at h; simp [truthyStr] at h
  | some c =>
      rw [hc] at h
      by_cases h0 : c = ""
      · simp [truthyStr, h0] at h
      · exact ⟨c, rfl, h0, by simp [get_verified_file, hc, h0]⟩

/-- Claim C1: for an identified session with cursor in range, an accepting
decision stores the catalog's exact item list for the current group in the
verified mapping under the effective name: the original catalog name when
the trimmed rename is empty, the trimmed rename otherwise. -/
theorem C1_accept_stores_effective_name (st : AppState) (rename : String)
    (hid : truthyStr st.session.computing_id = true)
    (hlt : cursor st < st.group_list.length) :
    dictLookup
      (if pyStrip rename = "" then (st.group_list.getD (cursor st) ("", [])).1
       else pyStrip rename)
      (load_verified_groups (verify st (some "yes") (some rename)).1)
    = some (st.group_list.getD (cursor st) ("", [])).2 := by
  obtain ⟨cid, hc, hne, hf⟩ := get_verified_file_of_truthy st.session hid
  have hnotge : ¬ st.group_list.length ≤ st.session.current_index.getD 0 :=
    not_le.mpr hlt
  by_cases hr : pyStrip rename = "" <;>
    simp [verify, cursor, truthyStr, hid, hnotge, hr, hf, save_verified_groups,
      load_verified_groups, get_verified_file, hc, hne, dictLookup_dictInsert]

/-- Closed witness for claim C1 at a concrete identified state. -/
theorem C1_witness :
    truthyStr st0.session.computing_id = true
    ∧ cursor st0 < st0.group_list.length
    ∧ dictLookup
        (if pyStrip "Bone Issues" = "" then (st0.group_list.getD (cursor st0) ("", [])).1
         else pyStrip "Bone Issues")
        (load_verified_groups (verify st0 (some "yes") (some "Bone Issues")).1)
      = some (st0.group_list.getD (cursor st0) ("", [])).2 :=
  ⟨by decide, by decide,
   C1_accept_stores_effective_name st0 "Bone Issues" (by decide) (by decide)⟩

/-- Claim C2: for an identified session with cursor i in range, submitting
any decision sets the cursor to exactly i + 1 and leaves every group of
the catalog unchanged. -/
theorem C2_decision_advances_cursor (st : AppState) (gv r : Option String)
    (hid : truthyStr st.session.computing_id = true)
    (hlt : cursor st < st.group_list.length) :
    ((verify st gv r).1).session.current_index = some (cursor st + 1)
    ∧ ((verify st gv r).1).group_list = st.group_list := by
  obtain ⟨cid, hc, hne, hf⟩ := get_verified_file_of_truthy st.session hid
  have hnotge : ¬ st.group_list.length ≤ st.session.current_index.getD 0 :=
    not_le.mpr hlt
  by_cases hy : gv = some "yes" <;>
    simp [verify, cursor, truthyStr, hid, hnotge, hy, hf, save_verified_groups,
      get_verified_file, hc, hne]

/-- Closed witness for claim C2 at a concrete identified state. -/
theorem C2_witness :
    truthyStr st0.session.computing_id = true
    ∧ cursor st0 < st0.group_list.length
    ∧ ((verify st0 (some "no") (some "")).1).session.current_index = some (cursor st0 + 1)
    ∧ ((verify st0 (some "no") (some "")).1).group_list = st0.group_list :=
  ⟨by decide, by decide,
   (C2_decision_advances_cursor st0 (some "no") (some "") (by decide) (by decide)).1,
   (C2_decision_advances_cursor st0 (some "no") (some "") (by decide) (by decide)).2⟩

/-- Claim C3: for an identified session with cursor in range, a rejecting
decision leaves every file of the verified store unchanged and performs no
file-system write. -/
theorem C3_reject_leaves_store (st : AppState) (gv r : Option String)
    (hid : truthyStr st.session.computing_id = true)
    (hlt : cursor st < st.group_list.length)
    (hrej : gv ≠ some "yes") :
    ((verify st gv r).1).files = st.files ∧ (verify st gv r).2.2 = [] := by
  have hnotge : ¬ st.group_list.length ≤ st.session.current_index.getD 0 :=
    not_le.mpr hlt
  simp [verify, cursor, hid, hnotge, hrej]

/-- Closed witness for claim C3 at a concrete identified state. -/
theorem C3_witness :
    truthyStr st0.session.computing_id = true
    ∧ cursor st0 < st0.group_list.length
    ∧ (some "no" : Option String) ≠ some "yes"
    ∧ ((verify st0 (some "no") (some "")).1).files = st0.files
    ∧ (verify st0 (some "no") (some "")).2.2 = [] :=
  ⟨by decide, by decide, by decide,
   (C3_reject_leaves_store st0 (some "no") (some "") (by decide) (by decide) (by decide)).1,
   (C3_reject_leaves_store st0 (some "no") (some "") (by decide) (by decide) (by decide)).2⟩

/-- Claim C4: the session cursor always lies in [0, len(catalog)]: a
missing cursor reads as 0, every handler preserves the bound, a decision
leaves the state unchanged when the cursor is not strictly below the
catalog length, and establishing a non-empty identity resets the cursor
to 0 regardless of its prior value. -/
theorem C4_cursor_bounds (st : AppState)
    (h : cursor st ≤ st.group_list.length) :
    (∀ s : AppState, s.session.current_index = none → cursor s = 0)
    ∧ (∀ gv r, cursor (verify st gv r).1 ≤ ((verify st gv r).1).group_list.length)
    ∧ (∀ gv r, st.group_list.length ≤ cursor st → (verify st gv r).1 = st)
    ∧ (∀ f, cursor (index_post st f).1 ≤ ((index_post st f).1).group_list.length)
    ∧ (∀ f, pyStrip f ≠ "" → ((index_post st f).1).session.current_index = some 0)
    ∧ cursor (index_get st).1 ≤ ((index_get st).1).group_list.length
    ∧ cursor (clear_data st).1 ≤ ((clear_data st).1).group_list.length := by
  have h' : st.session.current_index.getD 0 ≤ st.group_list.length := h
  refine ⟨?_, ?_, ?_, ?_, ?_, ?_, ?_⟩
  · intro s hs
    simp [cursor, hs]
  · intro gv r
    by_cases hid : truthyStr st.session.computing_id = true
    · by_cases hge : st.group_list.length ≤ st.session.current_index.getD 0
      · simpa [verify, cursor, hid, hge] using h
      · by_cases hy : gv = some "yes"
        · cases hgf : get_verified_file st.session <;>
            simp [verify, cursor, hid, hge, hy, hgf, save_verified_groups] <;>
              omega
        · simp [verify, cursor, hid, hge, hy]
          omega
    · simpa [verify, cursor, hid] using h
  · intro gv r hge
    by_cases hid : truthyStr st.session.computing_id = true
    · have hge' : st.group_list.length ≤ st.session.current_index.getD 0 := hge
      simp [verify, hid, hge']
    · simp [verify, hid]
  · intro f
    by_cases hf : pyStrip f = "" <;> simp [index_post, cursor, hf]
    exact h
  · intro f hf
    simp [index_post, hf]
  · by_cases hid : truthyStr st.session.computing_id = true
    · cases hci : st.session.current_index with
      | none =>
          by_cases hge : st.group_list.length ≤ (0 : Nat) <;>
            simp [index_get, cursor, hid, hci, hge]
      | some i =>
          rw [hci] at h'
          by_cases hge : st.group_list.length ≤ i <;>
            simp [index_get, cursor, hid, hci, hge] <;>
              simpa using h'
    · simpa [index_get, cursor, hid] using h
  · cases hgf : get_verified_file st.session with
    | none => simp [clear_data, cursor, hgf]
    | some f =>
        by_cases hex : st.files f = FileContent.absent <;>
          simp [clear_data, cursor, hgf, hex]

/-- Closed witness for claim C4 at a concrete identified state. -/
theorem C4_witness :
    cursor st0 ≤ st0.group_list.length
    ∧ ((∀ s : AppState, s.session.current_index = none → cursor s = 0)
       ∧ (∀ gv r, cursor (verify st0 gv r).1 ≤ ((verify st0 gv r).1).group_list.length)
       ∧ (∀ gv r, st0.group_list.length ≤ cursor st0 → (verify st0 gv r).1 = st0)
       ∧ (∀ f, cursor (index_post st0 f).1 ≤ ((index_post st0 f).1).group_list.length)
       ∧ (∀ f, pyStrip f ≠ "" → ((index_post st0 f).1).session.current_index = some 0)
       ∧ cursor (index_get st0).1 ≤ ((index_get st0).1).group_list.length
       ∧ cursor (clear_data st0).1 ≤ ((clear_data st0).1).group_list.length) :=
  ⟨by decide, C4_cursor_bounds st0 (by decide)⟩

/-- Claim C5: loading the verified store never fails: with an identity
set, a missing file and an unparseable file both load as the empty
mapping. -/
theorem C5_load_missing_or_corrupt (st : AppState) (f : String)
    (hf : get_verified_file st.session = some f)
    (hbad : st.files f = FileContent.absent ∨ st.files f = FileContent.corrupt) :
    load_verified_groups st = [] := by
  cases hbad with
  | inl h => simp [load_verified_groups, hf, h]
  | inr h => simp [load_verified_groups, hf, h]

/-- Closed witness for claim C5 at a concrete identified state with no
file on disk. -/
theorem C5_witness :
    get_verified_file st0.session = some "alice_verified_groups.json"
    ∧ (st0.files "alice_verified_groups.json" = FileContent.absent
       ∨ st0.files "alice_verified_groups.json" = FileContent.corrupt)
    ∧ load_verified_groups st0 = [] :=
  ⟨by decide, by decide,
   C5_load_missing_or_corrupt st0 "alice_verified_groups.json" (by decide) (by decide)⟩

/-- Claim C6: a decision submitted with no identity established returns
the state completely unchanged, performs no file-system operation, and
redirects to the index route, which at such a state shows the
identification form. -/
theorem C6_unidentified_decision (st : AppState) (gv r : Option String)
    (hid : truthyStr st.session.computing_id = false) :
    verify st gv r = (st, Response.redirectIndex, [])
    ∧ (index_get st).2 = Response.showIdentForm := by
  constructor <;> simp [verify, index_get, hid]

/-- Closed witness for claim C6 at the fresh state. -/
theorem C6_witness :
    truthyStr sampleInitial.session.computing_id = false
    ∧ verify sampleInitial (some "yes") (some "x") = (sampleInitial, Response.redirectIndex, [])
    ∧ (index_get sampleInitial).2 = Response.showIdentForm :=
  ⟨by decide,
   (C6_unidentified_decision sampleInitial (some "yes") (some "x") (by decide)).1,
   (C6_unidentified_decision sampleInitial (some "yes") (some "x") (by decide)).2⟩

/-- Claim C7: clearing data and then re-establishing the same identity
yields an empty loaded mapping and a cursor restarted at 0. -/
theorem C7_clear_then_load_empty (st : AppState) (cid : String)
    (hc : st.session.computing_id = some cid) (hne : cid ≠ "")
    (htrim : pyStrip cid = cid) :
    load_verified_groups ((index_post (clear_data st).1 cid).1) = []
    ∧ ((index_post (clear_data st).1 cid).1).session.current_index = some 0 := by
  have hgf : get_verified_file st.session = some (cid ++ "_verified_groups.json") := by
    simp [get_verified_file, hc, hne]
  by_cases hex : st.files (cid ++ "_verified_groups.json") = FileContent.absent <;>
    simp [clear_data, hgf, hex, index_post, htrim, hne, hc,
      load_verified_groups, get_verified_file]

/-- Closed witness for claim C7 at a concrete state whose identity has a
verified file on disk. -/
theorem C7_witness :
    st1.session.computing_id = some "alice"
    ∧ "alice" ≠ ""
    ∧ pyStrip "alice" = "alice"
    ∧ load_verified_groups ((index_post (clear_data st1).1 "alice").1) = []
    ∧ ((index_post (clear_data st1).1 "alice").1).session.current_index = some 0 :=
  ⟨by decide, by decide, by decide,
   (C7_clear_then_load_empty st1 "alice" (by decide) (by decide) (by decide)).1,
   (C7_clear_then_load_empty st1 "alice" (by decide) (by decide) (by decide)).2⟩

/-- Claim C8: the example source mapping yields a two-group catalog;
from a fresh state, establishing the identity, accepting the first group
unrenamed, then accepting the second renamed to Bone Issues yields the
expected store with the cursor at 2, and the main page then routes to the
summary view. -/
theorem C8_end_to_end :
    sampleCatalog = [("Respiratory", ["flu", "cold"]), ("Ortho", ["fracture"])]
    ∧ sampleCatalog.length = 2
    ∧ load_verified_groups
        (verify (verify (index_post sampleInitial "alice").1 (some "yes") (some "")).1
          (some "yes") (some "Bone Issues")).1
      = [("Respiratory", ["flu", "cold"]), ("Bone Issues", ["fracture"])]
    ∧ (verify (verify (index_post sampleInitial "alice").1 (some "yes") (some "")).1
        (some "yes") (some "Bone Issues")).1.session.current_index = some 2
    ∧ (index_get (verify (verify (index_post sampleInitial "alice").1 (some "yes") (some "")).1
        (some "yes") (some "Bone Issues")).1).2 = Response.redirectDone := by
  refine ⟨by decide, by decide, by decide, by decide, by decide⟩

/-- Claim C9 counterexample: at a concrete identified state, the trace of
save_verified_groups contains no rename at all, in particular it is not a
write to a temporary path followed by a rename into the identity's
file. -/
theorem C9_counterexample :
    ((save_verified_groups st0 [("Respiratory", ["flu", "cold"])]).2.any FsOp.isRename) = false
    ∧ ¬ ∃ tmp content,
        (save_verified_groups st0 [("Respiratory", ["flu", "cold"])]).2
          = [FsOp.write tmp content, FsOp.rename tmp "alice_verified_groups.json"] := by
  constructor
  · decide
  · intro h
    obtain ⟨tmp, content, hEq⟩ := h
    have hlen : ((save_verified_groups st0 [("Respiratory", ["flu", "cold"])]).2).length = 1 := by
      decide
    rw [hEq] at hlen
    simp at hlen

/-- Claim C9 amended: with an identity set, save_verified_groups
overwrites the identity's file by a single direct in-place write of the
mapping; no temporary file and no rename is involved. -/
theorem C9_amended_in_place_write (st : AppState)
    (d : List (String × List String)) (f : String)
    (hf : get_verified_file st.session = some f) :
    (save_verified_groups st d).2 = [FsOp.write f d]
    ∧ ((save_verified_groups st d).1).files f = FileContent.parsed d
    ∧ ((save_verified_groups st d).2.any FsOp.isRename) = false := by
  simp [save_verified_groups, hf, FsOp.isRename]

/-- Closed witness for the amended claim C9 at a concrete identified
state. -/
theorem C9_witness :
    get_verified_file st0.session = some "alice_verified_groups.json"
    ∧ (save_verified_groups st0 [("G", ["a"])]).2
        = [FsOp.write "alice_verified_groups.json" [("G", ["a"])]]
    ∧ ((save_verified_groups st0 [("G", ["a"])]).1).files "alice_verified_groups.json"
        = FileContent.parsed [("G", ["a"])]
    ∧ ((save_verified_groups st0 [("G", ["a"])]).2.any FsOp.isRename) = false :=
  ⟨by decide,
   (C9_amended_in_place_write st0 [("G", ["a"])] "alice_verified_groups.json" (by decide)).1,
   (C9_amended_in_place_write st0 [("G", ["a"])] "alice_verified_groups.json" (by decide)).2.1,
   (C9_amended_in_place_write st0 [("G", ["a"])] "alice_verified_groups.json" (by decide)).2.2⟩

/-- Claim C10: for an identified session whose cursor is at or past the
catalog length, submitting any decision returns the state unchanged (in
particular the cursor and every verified file), performs no file-system
operation, and redirects to the summary view. -/
theorem C10_exhausted_decision_noop (st : AppState) (gv r : Option String)
    (hid : truthyStr st.session.computing_id = true)
    (hge : st.group_list.length ≤ cursor st) :
    verify st gv r = (st, Response.redirectDone, []) := by
  have hge' : st.group_list.length ≤ st.session.current_index.getD 0 := hge
  simp [verify, hid, hge']

/-- Closed witness for claim C10 at a concrete exhausted state. -/
theorem C10_witness :
    truthyStr st1.session.computing_id = true
    ∧ st1.group_list.length ≤ cursor st1
    ∧ verify st1 (some "yes") (some "New Name") = (st1, Response.redirectDone, []) :=
  ⟨by decide, by decide,
   C10_exhausted_decision_noop st1 (some "yes") (some "New Name") (by decide) (by decide)⟩

end ReviewApp
